import Mathlib

/-!
Verification of the event-routing core of `XBoxController.py` (repository
MANDO_BT) against its natural-language specification.

The Python class is embedded shallowly:

* The callback registry `_callbacks` is a Python `dict` whose values are
  either a callback function (always truthy) or `None` (falsy).  We model it
  as an association list `Dict = List (String × Option Cb)` with Python dict
  semantics: item assignment updates the first matching key in place or
  appends a fresh entry, and lookup of an absent key is a `KeyError`.
  Callback functions are identified by a `Nat` id, which is enough to state
  which callback was invoked with which arguments.
* Stick/trigger values are `pygame` floats in `[-1, 1]`; the code only
  negates, takes `abs` and compares them, so we embed them as rationals `ℚ`
  (all three operations are exact on floats, so nothing is lost).
* `__handleEvent` runs side effects (callback calls).  We embed it as a
  function returning `Except PyError (List Invocation)`: the list records the
  callback invocations performed (callback id plus arguments), and `.error`
  models an uncaught Python exception escaping the handler.
* The `DEBUG` printing block is pure logging and is omitted; for an
  out-of-range button index it would raise the same `KeyError` the dispatch
  code below it raises, so omitting it does not change the observable
  outcome modelled here.
-/

/-- Callback identifier (stands for the Python function object). -/
abbrev Cb := Nat

/-- A Python dict from channel name to a registered callback (`some f`) or a
stored `None` (`none`), as an insertion-ordered association list. -/
abbrev Dict := List (String × Option Cb)

/-- Python dict lookup: `none` means the key is absent (a `KeyError` at use
sites), `some v` is the stored value. -/
def dictLookup (d : Dict) (k : String) : Option (Option Cb) :=
  List.lookup k d

/-- Python dict item assignment `d[k] = v`: update the first entry with key
`k` in place, or append a new entry when `k` is absent. -/
def dictSet (d : Dict) (k : String) (v : Option Cb) : Dict :=
  match d with
  | [] => [(k, v)]
  | p :: rest => if p.1 = k then (k, v) :: rest else p :: dictSet rest k v

/-- Uncaught Python exceptions the embedded code can raise. -/
inductive PyError
  | keyError (key : String)
  | typeError (msg : String)
  | ioError (msg : String)
deriving DecidableEq

/-- Arguments a callback is invoked with (one constructor per channel
category, mirroring the call sites in `__handleEvent`). -/
inductive Payload
  | button (state : Nat)
  | stick (axis : Nat) (value : ℚ)
  | trigger (value : ℚ)
  | hat (value : Int × Int)
deriving DecidableEq

/-- One performed callback invocation: which callback, with which args. -/
structure Invocation where
  cb : Cb
  payload : Payload
deriving DecidableEq

deriving instance DecidableEq for Except

/-- Raw pygame events consumed by `__handleEvent` (`other` covers every
event type not matched by any branch). -/
inductive RawEvent
  | buttonDown (button : Nat)
  | buttonUp (button : Nat)
  | axisMotion (axis : Nat) (value : ℚ)
  | hatMotion (value : Int × Int)
  | other
deriving DecidableEq

/-- `XBoxController.BUTTONS`: raw button index to channel name. -/
def BUTTONS : List (Nat × String) :=
  [(0, "a"), (1, "b"), (2, "x"), (3, "y"), (4, "left_bumper"),
   (5, "right_bumper"), (6, "back"), (7, "start"),
   (8, "left_stick_button"), (9, "right_stick_button")]

/-- `XBoxController.AXIS`: raw axis index to axis name (used by the debug
printer; dispatch matches on the raw index directly). -/
def AXIS : List (Nat × String) :=
  [(0, "left_stick_x"), (1, "left_stick_y"), (2, "right_stick_x"),
   (3, "right_stick_y"), (4, "left_trigger"), (5, "right_trigger")]

/-- The class-level default `_callbacks` dict: all 15 channels mapped to
`None`, in source order. -/
def defaultCallbacks : Dict :=
  [("x", none), ("y", none), ("a", none), ("b", none),
   ("left_trigger", none), ("right_trigger", none),
   ("left_bumper", none), ("right_bumper", none),
   ("back", none), ("start", none),
   ("left_stick", none), ("right_stick", none),
   ("left_stick_button", none), ("right_stick_button", none),
   ("hat", none)]

/-- The idiom `if self._callbacks[k]: self._callbacks[k](args)`: dict lookup
(raising `KeyError` when `k` is absent), truthiness test (stored `None` is a
no-op), then the call. -/
def fire (cbs : Dict) (k : String) (p : Payload) :
    Except PyError (List Invocation) :=
  match dictLookup cbs k with
  | none => .error (.keyError k)
  | some none => .ok []
  | some (some f) => .ok [⟨f, p⟩]

/-- `XBoxController.__handleEvent` with `DEBUG` off: the if/elif dispatch
chain over the event type.  `thr` is `self.sticks_threshold`, `cbs` is
`self._callbacks`.  Button branches first index `BUTTONS` by the raw button
(a `KeyError` on an unmapped index, with the integer key rendered as its
string). -/
def handleEvent (thr : ℚ) (cbs : Dict) (e : RawEvent) :
    Except PyError (List Invocation) :=
  match e with
  | .buttonDown b =>
    match List.lookup b BUTTONS with
    | some k => fire cbs k (.button 0)
    | none => .error (.keyError (toString b))
  | .buttonUp b =>
    match List.lookup b BUTTONS with
    | some k => fire cbs k (.button 1)
    | none => .error (.keyError (toString b))
  | .axisMotion a v =>
    if (a = 0 ∨ a = 1) ∧ |v| > thr then
      if a = 0 then fire cbs "left_stick" (.stick 0 v)
      else fire cbs "left_stick" (.stick 1 (-v))
    else if (a = 2 ∨ a = 3) ∧ |v| > thr then
      if a = 2 then fire cbs "right_stick" (.stick 0 v)
      else fire cbs "right_stick" (.stick 1 (-v))
    else if a = 4 then fire cbs "left_trigger" (.trigger v)
    else if a = 5 then fire cbs "right_trigger" (.trigger v)
    else .ok []
  | .hatMotion v => fire cbs "hat" (.hat v)
  | .other => .ok []

/-- `XBoxController.setCallback`: `self._callbacks[key] = callback`.  A plain
dict item assignment; it cannot fail, whatever the key. -/
def setCallback (cbs : Dict) (key : String) (callback : Option Cb) : Dict :=
  dictSet cbs key callback

/-- `XBoxController.setCallbacks`: `self._callbacks = callbacks` — the whole
registry is replaced by the argument dict. -/
def setCallbacks (_old : Dict) (callbacks : Dict) : Dict :=
  callbacks

/-- Instance state relevant to `connect` (`_controller` is the acquired
joystick handle, here the joystick index). -/
structure ControllerState where
  controller : Option Nat
  callbacks : Dict
  hz : Nat
  sticks_threshold : ℚ
deriving DecidableEq

/-- `XBoxController.connect`, parameterised by `pygame.joystick.get_count()`.
The Python function returns `False` when no joystick is present and falls
off the end (returning `None`) after acquiring the handle; the first
component models that return value (`none` = Python `None`). -/
def connect (deviceCount : Nat) (st : ControllerState) :
    Option Bool × ControllerState :=
  if deviceCount < 1 then (some false, st)
  else (none, { st with controller := some 0 })

/-- `XBoxController.__init__`, parameterised by
`pygame.joystick.get_count()`.  When no joystick is present the source
executes `raise(IOError, "No controller detected")`, i.e. it raises the
tuple `(IOError, "No controller detected")`; in Python 3 raising a
non-exception object produces `TypeError: exceptions must derive from
BaseException`.  Otherwise the controller handle is acquired and the
class-level defaults are in effect. -/
def initXBoxController (deviceCount : Nat) :
    Except PyError ControllerState :=
  if deviceCount < 1 then
    .error (.typeError "exceptions must derive from BaseException")
  else
    .ok { controller := some 0, callbacks := defaultCallbacks,
          hz := 20, sticks_threshold := 1/5 }

/-- The channel name an event is routed to, when dispatch reaches a registry
lookup at all: the same branch structure as `handleEvent` (sub-threshold
stick events and unmatched events reach no lookup). -/
def routedChannel (thr : ℚ) (e : RawEvent) : Option String :=
  match e with
  | .buttonDown b => List.lookup b BUTTONS
  | .buttonUp b => List.lookup b BUTTONS
  | .axisMotion a v =>
    if (a = 0 ∨ a = 1) ∧ |v| > thr then some "left_stick"
    else if (a = 2 ∨ a = 3) ∧ |v| > thr then some "right_stick"
    else if a = 4 then some "left_trigger"
    else if a = 5 then some "right_trigger"
    else none
  | .hatMotion _ => some "hat"
  | .other => none

/-- Two controller instances sharing the class-level `_callbacks` dict.
`inst1Callbacks`/`inst2Callbacks` are the per-instance `_callbacks`
attributes created only by `setCallbacks` (attribute rebinding); while they
are absent (`none`) attribute lookup falls through to the class dict, so
`setCallback`'s item assignment mutates the shared class-level dict. -/
structure SharedState where
  classCallbacks : Dict
  inst1Callbacks : Option Dict
  inst2Callbacks : Option Dict
deriving DecidableEq

/-- The dict that `self._callbacks` resolves to on instance 1
(`useFirst = true`) or instance 2. -/
def effectiveCallbacks (w : SharedState) (useFirst : Bool) : Dict :=
  match (if useFirst then w.inst1Callbacks else w.inst2Callbacks) with
  | some d => d
  | none => w.classCallbacks

/-- `setCallback` executed through one instance: item assignment on
whichever dict attribute lookup resolves to (the instance dict when the
instance has rebound `_callbacks`, else the shared class dict). -/
def setCallbackOn (w : SharedState) (useFirst : Bool) (k : String)
    (v : Option Cb) : SharedState :=
  match (if useFirst then w.inst1Callbacks else w.inst2Callbacks) with
  | some d =>
    if useFirst then { w with inst1Callbacks := some (dictSet d k v) }
    else { w with inst2Callbacks := some (dictSet d k v) }
  | none => { w with classCallbacks := dictSet w.classCallbacks k v }

/-! ### Dict lemmas -/

theorem dictLookup_dictSet_self (d : Dict) (k : String) (v : Option Cb) :
    dictLookup (dictSet d k v) k = some v := by
  induction d with
  | nil => simp [dictSet, dictLookup, List.lookup]
  | cons p rest ih =>
    by_cases h : p.1 = k
    · simp [dictSet, h, dictLookup, List.lookup]
    · have hb : (k == p.1) = false :=
        beq_eq_false_iff_ne.mpr fun e => h e.symm
      simp only [dictSet, h, if_false, dictLookup, List.lookup, hb]
      exact ih

theorem dictLookup_dictSet_ne (d : Dict) (k k' : String) (v : Option Cb)
    (hne : k' ≠ k) :
    dictLookup (dictSet d k v) k' = dictLookup d k' := by
  induction d with
  | nil =>
    simp [dictSet, dictLookup, List.lookup, beq_eq_false_iff_ne.mpr hne]
  | cons p rest ih =>
    by_cases h : p.1 = k
    · subst h
      simp [dictSet, dictLookup, List.lookup,
        beq_eq_false_iff_ne.mpr hne]
    · by_cases h2 : k' = p.1
      · simp [dictSet, h, dictLookup, List.lookup, h2]
      · simp only [dictSet, h, if_false, dictLookup, List.lookup,
          beq_eq_false_iff_ne.mpr h2]
        exact ih

/-! ### C4, C5, C3: dispatch correctness -/

/-- C4: for every button-down raw event with an index mapped by `BUTTONS`
whose channel has a registered callback, that callback is invoked with
exactly `0` (Pressed); the matching button-up event invokes it with exactly
`1` (Released); the payloads are pinned, so the reverse encoding never
occurs. -/
theorem button_press_release_encoding (thr : ℚ) (M : Dict) (b : Nat)
    (k : String) (f : Cb)
    (hb : List.lookup b BUTTONS = some k)
    (hM : dictLookup M k = some (some f)) :
    handleEvent thr M (.buttonDown b) = .ok [⟨f, .button 0⟩] ∧
    handleEvent thr M (.buttonUp b) = .ok [⟨f, .button 1⟩] := by
  constructor <;> simp [handleEvent, hb, fire, hM]

/-- Witness for `button_press_release_encoding` at button index 0 (`a`). -/
theorem button_press_release_encoding_witness :
    handleEvent (1/5) (dictSet defaultCallbacks "a" (some 7)) (.buttonDown 0)
      = .ok [⟨7, .button 0⟩] ∧
    handleEvent (1/5) (dictSet defaultCallbacks "a" (some 7)) (.buttonUp 0)
      = .ok [⟨7, .button 1⟩] :=
  button_press_release_encoding (1/5) (dictSet defaultCallbacks "a" (some 7))
    0 "a" 7 (by decide) (by decide)

/-- C5: every axis-motion event on axis 4 or 5 whose trigger channel holds a
registered callback invokes that callback with the raw value unchanged,
unconditionally in the value (no dead-zone test on the trigger branches). -/
theorem trigger_dispatch_unconditional (thr : ℚ) (M : Dict) (a : Nat)
    (v : ℚ) (f : Cb)
    (ha : a = 4 ∨ a = 5)
    (hM : dictLookup M (if a = 4 then "left_trigger" else "right_trigger")
      = some (some f)) :
    handleEvent thr M (.axisMotion a v) = .ok [⟨f, .trigger v⟩] := by
  rcases ha with h | h <;> subst h <;> simp at hM <;>
    simp [handleEvent, fire, hM]

/-- Witness for `trigger_dispatch_unconditional` on axis 4 with value 0
(inside the stick dead-zone, and still dispatched). -/
theorem trigger_dispatch_unconditional_witness :
    handleEvent (1/5) (dictSet defaultCallbacks "left_trigger" (some 2))
      (.axisMotion 4 0) = .ok [⟨2, .trigger 0⟩] :=
  trigger_dispatch_unconditional (1/5)
    (dictSet defaultCallbacks "left_trigger" (some 2)) 4 0 2
    (Or.inl rfl) (by decide)

/-- C3: for every axis-motion event on a stick axis (0–3) whose stick
channel holds a registered callback: above the dead-zone threshold the
callback fires exactly once with axis `a % 2` (0 = X, 1 = Y) and the value
negated exactly on the Y axis; at or below the threshold nothing fires. -/
theorem stick_deadzone_dispatch (thr : ℚ) (M : Dict) (a : Nat) (v : ℚ)
    (f : Cb)
    (ha : a = 0 ∨ a = 1 ∨ a = 2 ∨ a = 3)
    (hM : dictLookup M (if a ≤ 1 then "left_stick" else "right_stick")
      = some (some f)) :
    (|v| > thr → handleEvent thr M (.axisMotion a v)
      = .ok [⟨f, .stick (a % 2) (if a % 2 = 1 then -v else v)⟩]) ∧
    (|v| ≤ thr → handleEvent thr M (.axisMotion a v) = .ok []) := by
  rcases ha with h | h | h | h <;> subst h <;> simp at hM <;>
    refine ⟨fun hv => ?_, fun hv => ?_⟩
  all_goals simp [handleEvent, fire, hM, hv]

/-- Witness for `stick_deadzone_dispatch`: axis 1 (left stick Y), value 1/2,
threshold 1/5 — fires with (1, -1/2); and the same event at threshold 3/5
fires nothing. -/
theorem stick_deadzone_dispatch_witness :
    (|(1/2 : ℚ)| > 1/5 → handleEvent (1/5)
        (dictSet defaultCallbacks "left_stick" (some 4)) (.axisMotion 1 (1/2))
      = .ok [⟨4, .stick (1 % 2) (if 1 % 2 = 1 then -(1/2) else (1/2))⟩]) ∧
    (|(1/2 : ℚ)| ≤ 3/5 → handleEvent (3/5)
        (dictSet defaultCallbacks "left_stick" (some 4)) (.axisMotion 1 (1/2))
      = .ok []) :=
  ⟨(stick_deadzone_dispatch (1/5)
      (dictSet defaultCallbacks "left_stick" (some 4)) 1 (1/2) 4
      (Or.inr (Or.inl rfl)) (by decide)).1,
   (stick_deadzone_dispatch (3/5)
      (dictSet defaultCallbacks "left_stick" (some 4)) 1 (1/2) 4
      (Or.inr (Or.inl rfl)) (by decide)).2⟩

/-! ### C1: setCallback with an unrecognized name -/

/-- C1 counterexample: `setCallback` with the unrecognized name "bogus"
does not raise any error — it returns normally with the registry changed:
a 16th entry `("bogus", callback)` is appended, whereas the claim requires
an `UnknownChannel` error and an unchanged registry. -/
theorem setCallback_bogus_changes_registry :
    setCallback defaultCallbacks "bogus" (some 7)
      = defaultCallbacks ++ [("bogus", some 7)] ∧
    dictLookup defaultCallbacks "bogus" = none := by
  exact ⟨by decide, by decide⟩

/-- C1 (amended): `setCallback` accepts every channel name without any
validity check: it sets exactly that name's entry (adding a new key when
the name is not among the 15 channels) and leaves every other entry
unchanged; no error path exists. -/
theorem setCallback_sets_any_name (cbs : Dict) (k : String) (v : Option Cb) :
    dictLookup (setCallback cbs k v) k = some v ∧
    ∀ k', k' ≠ k → dictLookup (setCallback cbs k v) k' = dictLookup cbs k' :=
  ⟨dictLookup_dictSet_self cbs k v,
   fun k' h => dictLookup_dictSet_ne cbs k k' v h⟩

/-- Witness for `setCallback_sets_any_name` at the unrecognized name
"bogus", with "a" as the untouched other channel. -/
theorem setCallback_sets_any_name_witness :
    dictLookup (setCallback defaultCallbacks "bogus" (some 7)) "bogus"
      = some (some 7) ∧
    dictLookup (setCallback defaultCallbacks "bogus" (some 7)) "a"
      = dictLookup defaultCallbacks "a" :=
  ⟨(setCallback_sets_any_name defaultCallbacks "bogus" (some 7)).1,
   (setCallback_sets_any_name defaultCallbacks "bogus" (some 7)).2 "a"
     (by decide)⟩

/-! ### C2: setCallbacks with a partial mapping -/

/-- Whenever dispatch reaches a registry lookup, `routedChannel` names the
channel looked up: `handleEvent` is then `fire` on that channel. -/
theorem handleEvent_routed (thr : ℚ) (M : Dict) (e : RawEvent) (c : String)
    (hr : routedChannel thr e = some c) :
    ∃ p, handleEvent thr M e = fire M c p := by
  cases e with
  | buttonDown b =>
    simp only [routedChannel] at hr
    exact ⟨.button 0, by simp [handleEvent, hr]⟩
  | buttonUp b =>
    simp only [routedChannel] at hr
    exact ⟨.button 1, by simp [handleEvent, hr]⟩
  | axisMotion a v =>
    simp only [routedChannel] at hr
    by_cases h1 : (a = 0 ∨ a = 1) ∧ |v| > thr
    · rw [if_pos h1] at hr
      injection hr with hc
      subst hc
      rcases h1.1 with h | h <;> subst h
      · exact ⟨.stick 0 v, by simp [handleEvent, h1.2]⟩
      · exact ⟨.stick 1 (-v), by simp [handleEvent, h1.2]⟩
    · rw [if_neg h1] at hr
      by_cases h2 : (a = 2 ∨ a = 3) ∧ |v| > thr
      · rw [if_pos h2] at hr
        injection hr with hc
        subst hc
        rcases h2.1 with h | h <;> subst h
        · exact ⟨.stick 0 v, by simp [handleEvent, h2.2]⟩
        · exact ⟨.stick 1 (-v), by simp [handleEvent, h2.2]⟩
      · rw [if_neg h2] at hr
        by_cases h4 : a = 4
        · subst h4
          simp only [if_pos rfl] at hr
          injection hr with hc
          subst hc
          exact ⟨.trigger v, by simp [handleEvent, h1, h2]⟩
        · rw [if_neg h4] at hr
          by_cases h5 : a = 5
          · subst h5
            simp only [if_pos rfl] at hr
            injection hr with hc
            subst hc
            exact ⟨.trigger v, by simp [handleEvent, h1, h2]⟩
          · rw [if_neg h5] at hr
            cases hr
  | hatMotion v =>
    simp only [routedChannel] at hr
    injection hr with hc
    subst hc
    exact ⟨.hat v, by simp [handleEvent]⟩
  | other => cases hr

/-- C2 counterexample: after `setCallbacks` with the empty mapping — which
omits every channel, in particular "a" — the button-down event on button 0
routed to "a" is not a silent no-op: the registry lookup raises
`KeyError "a"`. -/
theorem omitted_channel_dispatch_raises :
    handleEvent (1/5) (setCallbacks defaultCallbacks []) (.buttonDown 0)
      = .error (.keyError "a") := rfl

/-- C2 (amended): `setCallbacks` replaces the registry wholesale with the
given mapping (channels present keep exactly the callback assigned), and
dispatching an event that reaches the registry lookup of an omitted channel
raises `KeyError` for that channel rather than silently no-opping
(sub-threshold stick events reach no lookup and remain no-ops). -/
theorem setCallbacks_omitted_channel_keyError (old M : Dict) :
    setCallbacks old M = M ∧
    ∀ (thr : ℚ) (e : RawEvent) (c : String),
      routedChannel thr e = some c → dictLookup M c = none →
      handleEvent thr M e = .error (.keyError c) := by
  refine ⟨rfl, fun thr e c hr hM => ?_⟩
  obtain ⟨p, hp⟩ := handleEvent_routed thr M e c hr
  rw [hp]
  simp [fire, hM]

/-- Witness for `setCallbacks_omitted_channel_keyError` with the empty
mapping and a button-0 event routed to the omitted channel "a". -/
theorem setCallbacks_omitted_channel_keyError_witness :
    setCallbacks defaultCallbacks [] = [] ∧
    handleEvent (1/5) [] (.buttonDown 0) = .error (.keyError "a") :=
  ⟨(setCallbacks_omitted_channel_keyError defaultCallbacks []).1,
   (setCallbacks_omitted_channel_keyError defaultCallbacks []).2 (1/5)
     (.buttonDown 0) "a" (by decide) rfl⟩

/-! ### C6: connect return value -/

/-- C6 (code evaluation): `connect` returns `False` and leaves the state
unchanged when no joystick is present, but on success it falls off the end
of the function and returns Python `None` (`none`) — not the boolean `true`
the claim requires. -/
theorem connect_success_returns_none (st : ControllerState) :
    connect 0 st = (some false, st) ∧
    (connect 1 st).1 = none ∧
    (connect 1 st).2.controller = some 0 :=
  ⟨rfl, rfl, rfl⟩

/-! ### C8: construction with no device -/

/-- C8 (code evaluation): constructing with no joystick present does raise,
but the raised error is a `TypeError` — the Python-2-style
`raise(IOError, "No controller detected")` raises a tuple, which Python 3
rejects with "exceptions must derive from BaseException" — not the intended
`IOError` standing for `DeviceUnavailable`.  With a joystick present,
construction succeeds holding an open handle. -/
theorem init_no_device_raises_typeError :
    initXBoxController 0
      = .error (.typeError "exceptions must derive from BaseException") ∧
    initXBoxController 1
      = .ok { controller := some 0, callbacks := defaultCallbacks,
              hz := 20, sticks_threshold := 1/5 } :=
  ⟨rfl, rfl⟩

/-! ### C7: the threshold only gates dispatch -/

/-- A stick-axis event at or below the threshold dispatches nothing. -/
theorem handleEvent_stick_below (t : ℚ) (M : Dict) (a : Nat) (v : ℚ)
    (ha : a = 0 ∨ a = 1 ∨ a = 2 ∨ a = 3) (hv : ¬ |v| > t) :
    handleEvent t M (.axisMotion a v) = .ok [] := by
  rcases ha with h | h | h | h <;> subst h <;> simp [handleEvent, hv]

/-- C7: the dead-zone threshold only gates dispatch and never alters the
delivered payload: two `handleEvent` runs on the same axis-motion event and
registry, differing only in the threshold, either perform identical
invocations or at least one of them performs none. -/
theorem threshold_only_gates_dispatch (t1 t2 : ℚ) (M : Dict) (a : Nat)
    (v : ℚ) (l1 l2 : List Invocation)
    (h1 : handleEvent t1 M (.axisMotion a v) = .ok l1)
    (h2 : handleEvent t2 M (.axisMotion a v) = .ok l2) :
    l1 = l2 ∨ l1 = [] ∨ l2 = [] := by
  by_cases hL : a = 0 ∨ a = 1
  · have ha : a = 0 ∨ a = 1 ∨ a = 2 ∨ a = 3 := hL.elim Or.inl (fun h => Or.inr (Or.inl h))
    by_cases hv1 : |v| > t1
    · by_cases hv2 : |v| > t2
      · left
        have he : (Except.ok l1 : Except PyError (List Invocation)) = .ok l2 := by
          rw [← h1, ← h2]
          simp [handleEvent, hL, hv1, hv2]
        injection he
      · right; right
        rw [handleEvent_stick_below t2 M a v ha hv2] at h2
        injection h2 with h
        exact h.symm
    · right; left
      rw [handleEvent_stick_below t1 M a v ha hv1] at h1
      injection h1 with h
      exact h.symm
  · by_cases hR : a = 2 ∨ a = 3
    · have ha : a = 0 ∨ a = 1 ∨ a = 2 ∨ a = 3 :=
        hR.elim (fun h => Or.inr (Or.inr (Or.inl h)))
          (fun h => Or.inr (Or.inr (Or.inr h)))
      by_cases hv1 : |v| > t1
      · by_cases hv2 : |v| > t2
        · left
          have he : (Except.ok l1 : Except PyError (List Invocation)) = .ok l2 := by
            rw [← h1, ← h2]
            simp [handleEvent, hL, hR, hv1, hv2]
          injection he
        · right; right
          rw [handleEvent_stick_below t2 M a v ha hv2] at h2
          injection h2 with h
          exact h.symm
      · right; left
        rw [handleEvent_stick_below t1 M a v ha hv1] at h1
        injection h1 with h
        exact h.symm
    · left
      have he : (Except.ok l1 : Except PyError (List Invocation)) = .ok l2 := by
        rw [← h1, ← h2]
        simp [handleEvent, hL, hR]
      injection he

/-- Witness for `threshold_only_gates_dispatch`: same axis-0 event, value
3/10, thresholds 1/5 and 3/5 — the first run fires callback 5 with
(0, 3/10), the second fires nothing. -/
theorem threshold_only_gates_dispatch_witness :
    ([⟨5, .stick 0 (3/10)⟩] : List Invocation) = [] ∨
    ([⟨5, .stick 0 (3/10)⟩] : List Invocation) = [] ∨
    ([] : List Invocation) = [] :=
  threshold_only_gates_dispatch (1/5) (3/5)
    (dictSet defaultCallbacks "left_stick" (some 5)) 0 (3/10)
    [⟨5, .stick 0 (3/10)⟩] []
    (by
      have hv : |(3/10 : ℚ)| > 1/5 := by
        rw [abs_of_pos] <;> norm_num
      simp only [handleEvent]
      rw [if_pos ⟨Or.inl trivial, hv⟩, if_pos trivial]
      simp [fire, dictLookup_dictSet_self])
    (by
      have hv : ¬ |(3/10 : ℚ)| > 3/5 := by
        rw [abs_of_pos] <;> norm_num
      exact handleEvent_stick_below (3/5)
        (dictSet defaultCallbacks "left_stick" (some 5)) 0 (3/10)
        (Or.inl rfl) hv)

/-! ### C9: the registry is class-level shared state -/

/-- C9: before any `setCallbacks` call, both instances resolve
`_callbacks` to the single class-level dict, so a `setCallback` performed
through instance 1 mutates that shared dict and a subsequent dispatch on
instance 2 invokes the newly registered callback. -/
theorem class_level_registry_shared (w : SharedState) (k : String) (f : Cb)
    (b : Nat) (thr : ℚ)
    (h1 : w.inst1Callbacks = none) (h2 : w.inst2Callbacks = none)
    (hb : List.lookup b BUTTONS = some k) :
    effectiveCallbacks (setCallbackOn w true k (some f)) false
      = dictSet w.classCallbacks k (some f) ∧
    handleEvent thr
      (effectiveCallbacks (setCallbackOn w true k (some f)) false)
      (.buttonDown b) = .ok [⟨f, .button 0⟩] := by
  have hreg : effectiveCallbacks (setCallbackOn w true k (some f)) false
      = dictSet w.classCallbacks k (some f) := by
    simp [setCallbackOn, effectiveCallbacks, h1, h2]
  refine ⟨hreg, ?_⟩
  rw [hreg]
  simp [handleEvent, hb, fire, dictLookup_dictSet_self]

/-- Witness for `class_level_registry_shared`: fresh class registry, the
"a" callback registered through instance 1 and fired by a button-0 event
dispatched on instance 2. -/
theorem class_level_registry_shared_witness :
    effectiveCallbacks
      (setCallbackOn ⟨defaultCallbacks, none, none⟩ true "a" (some 3)) false
      = dictSet defaultCallbacks "a" (some 3) ∧
    handleEvent (1/5)
      (effectiveCallbacks
        (setCallbackOn ⟨defaultCallbacks, none, none⟩ true "a" (some 3)) false)
      (.buttonDown 0) = .ok [⟨3, .button 0⟩] :=
  class_level_registry_shared ⟨defaultCallbacks, none, none⟩ "a" 3 0 (1/5)
    rfl rfl (by decide)

/-! ### C10: button indices outside 0–9 -/

/-- No entry of `BUTTONS` is keyed by an index 10 or above. -/
theorem buttons_lookup_none (b : Nat) (h : 10 ≤ b) :
    List.lookup b BUTTONS = none := by
  have hne : ∀ i : Nat, i ≤ 9 → (b == i) = false := fun i hi =>
    beq_eq_false_iff_ne.mpr (by omega)
  simp [BUTTONS, List.lookup, hne 0 (by omega), hne 1 (by omega),
    hne 2 (by omega), hne 3 (by omega), hne 4 (by omega), hne 5 (by omega),
    hne 6 (by omega), hne 7 (by omega), hne 8 (by omega), hne 9 (by omega)]

/-- C10: a button-down or button-up event whose index lies outside 0–9 is
not silently ignored: the `BUTTONS` index-to-name lookup fails, raising a
`KeyError` for that index, whatever the registry and threshold — dispatch
is total only when button indices lie in 0–9. -/
theorem unmapped_button_raises_keyError (thr : ℚ) (M : Dict) (b : Nat)
    (h : 10 ≤ b) :
    handleEvent thr M (.buttonDown b) = .error (.keyError (toString b)) ∧
    handleEvent thr M (.buttonUp b) = .error (.keyError (toString b)) := by
  constructor <;> simp [handleEvent, buttons_lookup_none b h]

/-- Witness for `unmapped_button_raises_keyError` at button index 10. -/
theorem unmapped_button_raises_keyError_witness :
    handleEvent (1/5) defaultCallbacks (.buttonDown 10)
      = .error (.keyError (toString 10)) ∧
    handleEvent (1/5) defaultCallbacks (.buttonUp 10)
      = .error (.keyError (toString 10)) :=
  unmapped_button_raises_keyError (1/5) defaultCallbacks 10 (by omega)
